import Mathlib

/-!
Shallow embedding of the Extraction & Decision Pipeline of the
job-application-parser repository (backend/app/ai_service.py and
backend/app/email_processor.py), together with theorems settling the
frozen claims about it.

Conventions of the embedding:
* Python strings are Lean `String`; a value read from a dict that may be
  absent or `None` is an `Option`.
* Python `float` confidences are embedded as `ℚ` (the source only ever
  compares and stores decimal constants such as 0.6, 0.85, 0.9, 0.3).
* `datetime` values are embedded symbolically (`DateVal.now` stands for
  `datetime.now()` at the moment of extraction).
* The external JSON decoder `json.loads` is an external collaborator and is
  passed in as a parameter `pj : String → Option (List (String × Json))`;
  `Option.none` stands for any outcome that the source's `except` clause
  would catch (a parse error, or a decoded value that is not an object).
* Raising Python code is embedded with `Except`; a `try/except` block is a
  `match` on the `Except` value.
-/

/-- ASCII whitespace as recognised by Python's str.strip and by the regex
class backslash-s: space, tab, newline, carriage return, vertical tab and
form feed. -/
def isPySpace (c : Char) : Bool :=
  c == ' ' || c == '\t' || c == '\n' || c == '\r' || c == '\x0b' || c == '\x0c'

/-- Lowercasing of one character, ASCII case mapping as used by str.lower on
the ASCII inputs of this pipeline. -/
def pyLowerChar (c : Char) : Char :=
  if 'A' ≤ c && c ≤ 'Z' then Char.ofNat (c.toNat + 32) else c

/-- Lowercasing of a Python string (str.lower), ASCII case mapping. -/
def pyLower (s : String) : String := String.mk (s.data.map pyLowerChar)

/-- Truthiness of an optional string under Python rules: None and the empty
string are falsy, every other string is truthy. -/
def pyTruthy : Option String → Bool
  | Option.none => false
  | Option.some s => !(s == "")

/-- Python str.strip on a character list. -/
def stripChars (cs : List Char) : List Char :=
  ((cs.dropWhile isPySpace).reverse.dropWhile isPySpace).reverse

/-- Python substring membership test, the expression needle in hay on str. -/
def strContains (needle hay : String) : Bool :=
  hay.data.tails.any (fun t => needle.data.isPrefixOf t)

/-- Atom of the restricted regular expressions appearing in the source: a
literal character sequence, or a greedy one-or-more repetition of a
character class. -/
inductive RAtom
  | lit (s : List Char)
  | plus (cls : Char → Bool)

/-- Remainders of the input after a greedy one-or-more class repetition,
longest consumption first, mirroring the backtracking priority of Python's
re engine. Empty when not even one character matches. -/
def plusRemainders (cls : Char → Bool) (cs : List Char) : List (List Char) :=
  let m := (cs.takeWhile cls).length
  (List.range m).map (fun t => cs.drop (m - t))

/-- Remainders of the input after one atom, in backtracking priority order. -/
def atomMatches : RAtom → List Char → List (List Char)
  | RAtom.lit s, cs => if s.isPrefixOf cs then [cs.drop s.length] else []
  | RAtom.plus cls, cs => plusRemainders cls cs

/-- Remainders of the input after a sequence of atoms, in backtracking
priority order: earlier atoms backtrack outermost, each greedy. -/
def seqMatches : List RAtom → List Char → List (List Char)
  | [], cs => [cs]
  | a :: rest, cs => (atomMatches a cs).flatMap (seqMatches rest)

/-- Candidate captures for a greedy one-or-more class capture group, longest
first, each paired with the remaining input. -/
def groupSplits (cls : Char → Bool) (cs : List Char) : List (List Char × List Char) :=
  let m := (cs.takeWhile cls).length
  (List.range m).map (fun t => (cs.take (m - t), cs.drop (m - t)))

/-- Shape shared by every regex of the source: a prefix, a single captured
class repetition, and a suffix. -/
structure RPattern where
  pre : List RAtom
  grp : Char → Bool
  post : List RAtom

/-- Captured group of a match of the pattern anchored at the start of the
input, if any, following the backtracking priority of re: prefix choices
outermost, then the greedy group, then the suffix. -/
def tryAt (p : RPattern) (cs : List Char) : Option (List Char) :=
  (seqMatches p.pre cs).findSome? (fun r1 =>
    (groupSplits p.grp r1).findSome? (fun pr =>
      if (seqMatches p.post pr.2).isEmpty then Option.none else Option.some pr.1))

/-- Captured group of the leftmost match in the input, as
re.search(pattern, text).group(1). -/
def reSearchGroup (p : RPattern) (cs : List Char) : Option (List Char) :=
  cs.tails.findSome? (tryAt p)

/-- Search a pattern in a string and return the stripped captured group, as
the source's match.group(1).strip(). -/
def searchGroupStr (p : RPattern) (s : String) : Option String :=
  (reSearchGroup p s.data).map (fun cs => String.mk (stripChars cs))

/-- Character class [a-zA-Z backslash-s &] of the company patterns. -/
def clsCompany (c : Char) : Bool := c.isAlpha || isPySpace c || c == '&'

/-- Character class [a-zA-Z backslash-s] of the role patterns. -/
def clsRole (c : Char) : Bool := c.isAlpha || isPySpace c

/-- Character class [: backslash-s] of the lever role pattern. -/
def clsColonSpace (c : Char) : Bool := c == ':' || isPySpace c

/-- JSON values as produced by the external json.loads collaborator. -/
inductive Json
  | null
  | str (s : String)
  | num (q : ℚ)
  | bool (b : Bool)
  | arr (xs : List Json)
  | obj (kvs : List (String × Json))

/-- Embedding of the datetime values flowing through the pipeline:
DateVal.now stands for datetime.now() at extraction time, DateVal.ymd for a
value parsed by strptime, and DateVal.raw for a non-null, non-string JSON
value that the source leaves untouched in the date_applied slot (its payload
is abstracted away; no stage of the pipeline reads it back). -/
inductive DateVal
  | now
  | ymd (y m d : ℕ)
  | raw
  deriving DecidableEq

/-- Raw email record as produced by GmailService._parse_email: the keys
id, subject, sender, date, body and thread_id are always present. -/
structure Email where
  id : String
  subject : String
  sender : String
  date : String
  body : String
  threadId : String

/-- Result dict of the extraction stages, with the keys
company, role, date_applied, source, status, confidence, reasoning.
An Option field is none when the key is absent or its value is None. -/
structure ParsedData where
  company : Option String
  role : Option String
  dateApplied : Option DateVal
  source : Option String
  status : Option String
  confidence : Option ℚ
  reasoning : Option String
  deriving DecidableEq

/-- Per-provider regex rule set, one row of the patterns dict in
_try_structured_parsing. -/
structure AtsPatterns where
  companyPattern : RPattern
  rolePattern : RPattern
  confidence : ℚ
  name : String

/-- Regex at backslash-s+ followed by the captured company class. -/
def patAtCompany : RPattern :=
  ⟨[RAtom.lit ['a', 't'], RAtom.plus isPySpace], clsCompany, []⟩

/-- Regex position[: backslash-s]+ followed by the captured role class. -/
def patPositionRole : RPattern :=
  ⟨[RAtom.lit ['p', 'o', 's', 'i', 't', 'i', 'o', 'n'], RAtom.plus clsColonSpace],
    clsRole, []⟩

/-- Regex captured company class followed by backslash-s+application. -/
def patCompanyApplication : RPattern :=
  ⟨[], clsCompany,
    [RAtom.plus isPySpace,
      RAtom.lit ['a', 'p', 'p', 'l', 'i', 'c', 'a', 't', 'i', 'o', 'n']]⟩

/-- Regex captured role class followed by backslash-s+position. -/
def patRolePosition : RPattern :=
  ⟨[], clsRole,
    [RAtom.plus isPySpace, RAtom.lit ['p', 'o', 's', 'i', 't', 'i', 'o', 'n']]⟩

/-- Regex captured company class followed by backslash-s+careers. -/
def patCompanyCareers : RPattern :=
  ⟨[], clsCompany,
    [RAtom.plus isPySpace, RAtom.lit ['c', 'a', 'r', 'e', 'e', 'r', 's']]⟩

/-- Regex captured role class followed by backslash-s+job. -/
def patRoleJob : RPattern :=
  ⟨[], clsRole, [RAtom.plus isPySpace, RAtom.lit ['j', 'o', 'b']]⟩

/-- Regex captured role class followed by backslash-s+role. -/
def patRoleRole : RPattern :=
  ⟨[], clsRole, [RAtom.plus isPySpace, RAtom.lit ['r', 'o', 'l', 'e']]⟩

/-- Regex captured role class followed by backslash-s+engineer. -/
def patRoleEngineer : RPattern :=
  ⟨[], clsRole,
    [RAtom.plus isPySpace, RAtom.lit ['e', 'n', 'g', 'i', 'n', 'e', 'e', 'r']]⟩

/-- Rational constant 0.9, in normalized constructor form so that kernel
reduction (and hence decide) can evaluate it. -/
def conf09 : ℚ := ⟨9, 10, by norm_num, by norm_num⟩

/-- Rational constant 0.85 = 17/20 in normalized constructor form. -/
def conf085 : ℚ := ⟨17, 20, by norm_num, by norm_num⟩

/-- Rational constant 0.3 = 3/10 in normalized constructor form. -/
def conf03 : ℚ := ⟨3, 10, by norm_num, by norm_num⟩

/-- Rational constant 0.6 = 3/5 in normalized constructor form, the Decision
Gate's min_confidence. -/
def minConfidence : ℚ := ⟨3, 5, by norm_num, by norm_num⟩

/-- Rule set of the lever row of the patterns dict. -/
def leverPatterns : AtsPatterns :=
  ⟨patAtCompany, patPositionRole, conf09, "lever"⟩

/-- Rule set of the greenhouse row of the patterns dict. -/
def greenhousePatterns : AtsPatterns :=
  ⟨patCompanyApplication, patRolePosition, conf09, "greenhouse"⟩

/-- Rule set of the workday row of the patterns dict. -/
def workdayPatterns : AtsPatterns :=
  ⟨patCompanyCareers, patRoleJob, conf085, "workday"⟩

/-- Provider identification of _try_structured_parsing: the fixed-priority
if/elif chain testing the provider token against the raw sender and the
lowercased body. -/
def identifyAts (sender lowBody : String) : Option AtsPatterns :=
  if strContains ("lever") sender || strContains ("lever") lowBody then
    Option.some leverPatterns
  else if strContains ("greenhouse") sender || strContains ("greenhouse") lowBody then
    Option.some greenhousePatterns
  else if strContains ("workday") sender || strContains ("workday") lowBody then
    Option.some workdayPatterns
  else
    Option.none

/-- Pattern Extractor, _try_structured_parsing: lowercase subject and body,
identify the provider from sender or body, then require both the company and
the role pattern to match the concatenation subject-space-body. -/
def tryStructured (e : Email) : Option ParsedData :=
  match identifyAts e.sender (pyLower e.body) with
  | Option.none => Option.none
  | Option.some p =>
    match searchGroupStr p.companyPattern (pyLower e.subject ++ " " ++ pyLower e.body),
        searchGroupStr p.rolePattern (pyLower e.subject ++ " " ++ pyLower e.body) with
    | Option.some c, Option.some r =>
      Option.some
        ⟨Option.some c, Option.some r, Option.some DateVal.now,
          Option.some ("email"), Option.some ("applied"),
          Option.some p.confidence,
          Option.some ("Parsed using " ++ p.name ++ " ATS patterns")⟩
    | _, _ => Option.none

/-- Ordered company pattern list of _fallback_parsing. -/
def fallbackCompanyPatterns : List RPattern :=
  [patAtCompany, patCompanyApplication, patCompanyCareers]

/-- Ordered role pattern list of _fallback_parsing. -/
def fallbackRolePatterns : List RPattern :=
  [patRolePosition, patRoleRole, patRoleEngineer]

/-- First pattern of the list that matches, returning its stripped captured
group, as the for/break loops of _fallback_parsing. -/
def fallbackFirst (pats : List RPattern) (text : String) : Option String :=
  pats.findSome? (fun p => searchGroupStr p text)

/-- Fallback Extractor, _fallback_parsing: provider-agnostic first-match
extraction over lowercased subject-space-body with the truthiness-based
confidence and status policy of the source. -/
def fallbackParsing (e : Email) : ParsedData :=
  let text := pyLower e.subject ++ " " ++ pyLower e.body
  let company := fallbackFirst fallbackCompanyPatterns text
  let role := fallbackFirst fallbackRolePatterns text
  ⟨company, role, Option.some DateVal.now, Option.some ("email"),
    Option.some (if pyTruthy company || pyTruthy role then "applied" else "unclear"),
    Option.some (if pyTruthy company || pyTruthy role then conf03 else 0),
    Option.some ("Fallback parsing used - limited confidence")⟩

/-- Truthiness-and-not-null test applied by the Decision Gate to the company
and role fields: Python parsed_data.get(key) and parsed_data.get(key) != 'null'. -/
def hasField : Option String → Bool
  | Option.none => false
  | Option.some s => !(s == "") && !(s == "null")

/-- Decision Gate, _should_save_application: company and role must be truthy
and differ from the literal string null, and confidence (0.0 when the key is
absent) must be at least min_confidence = 0.6. -/
def shouldSave (d : ParsedData) : Bool :=
  hasField d.company && hasField d.role && decide (minConfidence ≤ d.confidence.getD 0)

/-- Decision Gate rule as worded by the specification, for the refinement
claim: company is present and not the literal placeholder null, role likewise,
and confidence is at least 0.6; a present field is one carrying a (non-empty)
string under Python truthiness. -/
def shouldSaveSpec (d : ParsedData) : Prop :=
  (∃ s, d.company = Option.some s ∧ s ≠ "" ∧ s ≠ "null") ∧
    (∃ s, d.role = Option.some s ∧ s ≠ "" ∧ s ≠ "null") ∧
    minConfidence ≤ d.confidence.getD 0

/-- Index of the first occurrence of a character in a list, if any. -/
def charIndex (c : Char) : List Char → Option ℕ
  | [] => Option.none
  | x :: xs => if x == c then Option.some 0 else (charIndex c xs).map (· + 1)

/-- Python str.find for a single character: first index, or -1 if absent. -/
def pyFind (c : Char) (s : String) : Int :=
  match charIndex c s.data with
  | Option.some n => (n : Int)
  | Option.none => -1

/-- Python str.rfind for a single character: last index, or -1 if absent. -/
def pyRfind (c : Char) (s : String) : Int :=
  match charIndex c s.data.reverse with
  | Option.some n => ((s.data.length - 1 - n : ℕ) : Int)
  | Option.none => -1

/-- Normalization of one Python slice index against a length: negative
indices count from the end, and the result is clamped to [0, n]. -/
def sliceIndex (x : Int) (n : ℕ) : Int :=
  if x < 0 then max ((n : Int) + x) 0 else min x ((n : Int))

/-- Python slicing s[a:b] with negative-index normalization and clamping. -/
def pySlice (s : String) (a b : Int) : String :=
  String.mk ((s.data.take (sliceIndex b s.data.length).toNat).drop
    (sliceIndex a s.data.length).toNat)

/-- Substring of the model reply handed to json.loads by _parse_ai_response:
ai_response[ai_response.find(openbrace) : ai_response.rfind(closebrace) + 1]. -/
def extractJsonStr (s : String) : String :=
  pySlice s (pyFind ('{') s) (pyRfind ('}') s + 1)

/-- Scanner for the balanced-span reading: consume characters keeping a brace
depth counter, returning the span once the depth first returns to zero. -/
def balancedSpanAux : List Char → ℕ → List Char → Option (List Char)
  | [], _, _ => Option.none
  | c :: rest, depth, acc =>
    if c == '{' then balancedSpanAux rest (depth + 1) (c :: acc)
    else if c == '}' then
      if depth ≤ 1 then Option.some (c :: acc).reverse
      else balancedSpanAux rest (depth - 1) (c :: acc)
    else balancedSpanAux rest depth (c :: acc)

/-- Modelled from the specification's words, for the refinement claim about
the extracted span: the first balanced brace-to-brace span of the text,
starting at the first opening brace and ending at the matching brace that
closes it. Not part of the source. -/
def firstBalancedSpan (s : String) : Option String :=
  match s.data.dropWhile (fun c => !(c == '{')) with
  | [] => Option.none
  | c :: rest => (balancedSpanAux (c :: rest) 0 []).map String.mk

/-- Numeric value of a digit list, most significant first. -/
def digitsToNat (cs : List Char) : ℕ :=
  cs.foldl (fun n c => 10 * n + (c.toNat - 48)) 0

/-- Split a character list at dashes. -/
def splitOnDash : List Char → List Char → List (List Char)
  | [], acc => [acc.reverse]
  | c :: rest, acc =>
    if c == '-' then acc.reverse :: splitOnDash rest [] else splitOnDash rest (c :: acc)

/-- Approximate model of datetime.strptime(s, percent-Y-percent-m-percent-d):
three dash-separated digit groups with month and day in calendar range
(exact per-month day validation is abstracted). No claim exercises this
parser; it only fixes which branch of the date coercion is taken. -/
def strptimeYmd (s : String) : Option DateVal :=
  match splitOnDash s.data [] with
  | [ys, ms, ds] =>
    if ys.length == 4 && ys.all Char.isDigit && ms.length ≥ 1 && ms.length ≤ 2 &&
        ms.all Char.isDigit && ds.length ≥ 1 && ds.length ≤ 2 && ds.all Char.isDigit then
      let m := digitsToNat ms
      let d := digitsToNat ds
      if 1 ≤ m && m ≤ 12 && 1 ≤ d && d ≤ 31 then
        Option.some (DateVal.ymd (digitsToNat ys) m d)
      else Option.none
    else Option.none
  | _ => Option.none

/-- Lookup of a key in a decoded JSON object. -/
def jLookup (kvs : List (String × Json)) (k : String) : Option Json :=
  (kvs.find? (fun p => p.1 == k)).map (fun p => p.2)

/-- String-typed field of a decoded object: a missing key (backfilled with
None by the source) and a JSON null both give none; values of other JSON
types are outside this embedding's typed fields and also map to none. -/
def jStrField : Option Json → Option String
  | Option.some (Json.str s) => Option.some s
  | _ => Option.none

/-- Number-typed field of a decoded object, same conventions as jStrField. -/
def jNumField : Option Json → Option ℚ
  | Option.some (Json.num q) => Option.some q
  | _ => Option.none

/-- Date coercion of _parse_ai_response: a truthy string is parsed with
strptime, parse failure defaulting to datetime.now(); None or a missing key
stays unset; any other value (including the falsy empty string) is left in
place uncoerced, embedded as DateVal.raw. -/
def jDateField : Option Json → Option DateVal
  | Option.some (Json.str s) =>
    if s == "" then Option.some DateVal.raw
    else Option.some ((strptimeYmd s).getD DateVal.now)
  | Option.some Json.null => Option.none
  | Option.none => Option.none
  | Option.some _ => Option.some DateVal.raw

/-- Dict returned by the except clause of _parse_ai_response; note it carries
no reasoning key. -/
def defaultAiParse : ParsedData :=
  ⟨Option.none, Option.none, Option.some DateVal.now, Option.some ("email"),
    Option.some ("unclear"), Option.some 0, Option.none⟩

/-- Reply parser _parse_ai_response: slice the reply from the first opening
brace to one past the last closing brace, decode it with json.loads (the
parameter pj; none covers any outcome the except clause would catch),
backfill the six required keys, and coerce date_applied. -/
def parseAiResponse (pj : String → Option (List (String × Json)))
    (aiResponse : String) : ParsedData :=
  let jsonStr := extractJsonStr aiResponse
  match pj jsonStr with
  | Option.none => defaultAiParse
  | Option.some data =>
    ⟨jStrField (jLookup data ("company")), jStrField (jLookup data ("role")),
      jDateField (jLookup data ("date_applied")), jStrField (jLookup data ("source")),
      jStrField (jLookup data ("status")), jNumField (jLookup data ("confidence")),
      jStrField (jLookup data ("reasoning"))⟩

/-- Outcome of the single requests.post call of _ai_reasoning_parse: a raised
exception, or a response with a status code and, when the body decodes as
expected, the generated_text field (none when reading it would raise). -/
inductive TransportOutcome
  | exc
  | resp (status : ℕ) (generatedText : Option String)

/-- Body of the try block of _ai_reasoning_parse, with raising operations
made explicit in the Except result: the request itself may raise, and so may
reading generated_text from a malformed response body; a non-200 status
returns the fallback result from inside the try block. -/
def aiReasoningTry (pj : String → Option (List (String × Json))) (e : Email)
    (t : TransportOutcome) : Except String ParsedData :=
  match t with
  | TransportOutcome.exc => Except.error ("requests.post raised")
  | TransportOutcome.resp status body =>
    if status == 200 then
      match body with
      | Option.none => Except.error ("response body not in the expected shape")
      | Option.some text =>
        let d := parseAiResponse pj text
        Except.ok { d with reasoning := Option.some text }
    else Except.ok (fallbackParsing e)

/-- Generative Extractor, _ai_reasoning_parse: the try body with its blanket
except clause, which maps every raised exception to the fallback result. -/
def aiReasoningParse (pj : String → Option (List (String × Json))) (e : Email)
    (t : TransportOutcome) : ParsedData :=
  match aiReasoningTry pj e t with
  | Except.ok d => d
  | Except.error _ => fallbackParsing e

/-- Full per-email parser parse_job_email: adopt the structured result when
its confidence exceeds 0.8, otherwise invoke the generative stage. -/
def parseJobEmail (pj : String → Option (List (String × Json))) (e : Email)
    (t : TransportOutcome) : ParsedData :=
  match tryStructured e with
  | Option.some r =>
    if decide (⟨4, 5, by norm_num, by norm_num⟩ < r.confidence.getD 0) then r
    else aiReasoningParse pj e t
  | Option.none => aiReasoningParse pj e t

/-- Per-item entry of the details list of process_new_emails. An outer none
marks a key that the entry does not carry at all. -/
structure Detail where
  email_id : String
  status : String
  error : Option String
  company : Option (Option String)
  role : Option (Option String)
  confidence : Option (Option ℚ)
  reasoning : Option (Option String)
  deriving DecidableEq

/-- Batch summary dict of process_new_emails. -/
structure BatchResults where
  total_emails : ℕ
  processed : ℕ
  saved : ℕ
  errors : ℕ
  details : List Detail
  deriving DecidableEq

/-- Details entry of the per-email except clause. -/
def errorDetail (eid msg : String) : Detail :=
  ⟨eid, "error", Option.some msg, Option.none, Option.none, Option.none, Option.none⟩

/-- Details entry of a successful save. -/
def savedDetail (eid : String) (pd : ParsedData) : Detail :=
  ⟨eid, "saved", Option.none, Option.some pd.company, Option.some pd.role,
    Option.some pd.confidence, Option.none⟩

/-- Details entry of a failed database save. -/
def saveFailDetail (eid : String) : Detail :=
  ⟨eid, "error", Option.some ("Failed to save to database"), Option.none,
    Option.none, Option.none, Option.none⟩

/-- Details entry of a record flagged for manual review. -/
def reviewDetail (eid : String) (pd : ParsedData) : Detail :=
  ⟨eid, "needs_review", Option.none, Option.some pd.company, Option.some pd.role,
    Option.some pd.confidence, Option.some pd.reasoning⟩

/-- One iteration of the batch loop of process_new_emails. The per-email
pipeline is the parameter parse (an Except value embeds an uncaught raise
from the stages guarded by the per-email try); the persistence sink is the
parameter save (false embeds _save_application returning None). -/
def processStep (parse : Email → Except String ParsedData)
    (save : ParsedData → Email → Bool) (acc : BatchResults) (e : Email) :
    BatchResults :=
  match parse e with
  | Except.error msg =>
    { acc with errors := acc.errors + 1, details := acc.details ++ [errorDetail e.id msg] }
  | Except.ok pd =>
    if shouldSave pd then
      if save pd e then
        { acc with
          processed := acc.processed + 1
          saved := acc.saved + 1
          details := acc.details ++ [savedDetail e.id pd] }
      else
        { acc with
          processed := acc.processed + 1
          errors := acc.errors + 1
          details := acc.details ++ [saveFailDetail e.id] }
    else
      { acc with
        processed := acc.processed + 1
        details := acc.details ++ [reviewDetail e.id pd] }

/-- Pipeline Orchestrator, process_new_emails: fold the guarded per-email
loop over the batch, starting from the summary whose total_emails is the
batch size. -/
def processNewEmails (parse : Email → Except String ParsedData)
    (save : ParsedData → Email → Bool) (emails : List Email) : BatchResults :=
  emails.foldl (processStep parse save) ⟨emails.length, 0, 0, 0, []⟩

/-- Details entry contributed by one email, matching the branch structure of
the loop body. -/
def detailOf (parse : Email → Except String ParsedData)
    (save : ParsedData → Email → Bool) (e : Email) : Detail :=
  match parse e with
  | Except.error msg => errorDetail e.id msg
  | Except.ok pd =>
    if shouldSave pd then
      if save pd e then savedDetail e.id pd else saveFailDetail e.id
    else reviewDetail e.id pd

/-- Rational constant 0.59999, the boundary probe below the gate threshold. -/
def conf059999 : ℚ := ⟨59999, 100000, by norm_num, by norm_num⟩

/-- Concrete lever email whose pattern extraction succeeds with non-empty
fields; used as evaluation input by witnesses. -/
def eAcme : Email := ⟨"1", "", "jobs@lever.co", "", "Position engineer at acme", ""⟩

/-- Pattern-extraction result of eAcme. -/
def rAcme : ParsedData :=
  ⟨Option.some ("acme"), Option.some ("engineer at acme"), Option.some DateVal.now,
    Option.some ("email"), Option.some ("applied"), Option.some conf09,
    Option.some ("Parsed using lever ATS patterns")⟩

/-- Concrete lever email whose captured company group is the literal null. -/
def eNull : Email := ⟨"6", "", "lever", "", "Position x at null", ""⟩

/-- Pattern-extraction result of eNull. -/
def rNull : ParsedData :=
  ⟨Option.some ("null"), Option.some ("x at null"), Option.some DateVal.now,
    Option.some ("email"), Option.some ("applied"), Option.some conf09,
    Option.some ("Parsed using lever ATS patterns")⟩

/-- Concrete email whose body makes the first fallback company pattern match
with a captured group consisting of whitespace only. -/
def eAtOnly : Email := ⟨"7", "", "x", "", "at  ", ""⟩

/-- Concrete email with empty subject and body. -/
def eEmpty : Email := ⟨"0", "", "", "", "", ""⟩

/-- Concrete email whose sender carries the lever token only with an upper
case initial and whose body mentions no provider. -/
def eLeverCase : Email := ⟨"10", "Application", "Apply@Lever.co", "", "Hello there", ""⟩

/-- json.loads model that fails on every input, as it does on the reply
hello (whose sliced span is the empty string). -/
def pjNone : String → Option (List (String × Json)) := fun _ => Option.none

/-- Model reply that is a JSON object with an out-of-range confidence. -/
def cfString : String := "\x7b\"confidence\": 2\x7d"

/-- json.loads model for cfString: decodes exactly that text to the object
with confidence 2, failing elsewhere. -/
def pjConf2 : String → Option (List (String × Json)) :=
  fun s => if s == cfString then Option.some [(("confidence"), Json.num 2)] else Option.none

/-- Well-formed parse result that passes the Decision Gate; used by the batch
witness. -/
def pdOk : ParsedData :=
  ⟨Option.some ("acme"), Option.some ("eng"), Option.some DateVal.now,
    Option.some ("email"), Option.some ("applied"), Option.some conf09, Option.none⟩

/-- Batch witness emails. -/
def eA : Email := ⟨"a", "", "", "", "", ""⟩

/-- Batch witness email whose processing raises. -/
def eB : Email := ⟨"b", "", "", "", "", ""⟩

/-- Batch witness email after the failing one. -/
def eC : Email := ⟨"c", "", "", "", "", ""⟩

/-- Per-email pipeline model for the batch witness: raises exactly on eB. -/
def parseDemo : Email → Except String ParsedData :=
  fun e => if e.id == "b" then Except.error ("boom") else Except.ok pdOk

/-- Persistence sink model for the batch witness: always succeeds. -/
def saveDemo : ParsedData → Email → Bool := fun _ _ => true

/-- Gate probe at confidence exactly 0.6 with both fields present. -/
def dGateHi : ParsedData :=
  ⟨Option.some ("Acme"), Option.some ("Engineer"), Option.none, Option.none,
    Option.none, Option.some minConfidence, Option.none⟩

/-- Gate probe at confidence 0.59999 with both fields present. -/
def dGateLo : ParsedData :=
  ⟨Option.some ("Acme"), Option.some ("Engineer"), Option.none, Option.none,
    Option.none, Option.some conf059999, Option.none⟩

/-! Helper lemmas shared by several claims. -/

/-- Provider identification only ever returns one of the three table rows. -/
theorem identifyAts_cases (sender lowBody : String) (p : AtsPatterns)
    (h : identifyAts sender lowBody = Option.some p) :
    p = leverPatterns ∨ p = greenhousePatterns ∨ p = workdayPatterns := by
  unfold identifyAts at h
  split at h
  · exact Or.inl (Option.some.injEq .. ▸ h.symm)
  · split at h
    · exact Or.inr (Or.inl (Option.some.injEq .. ▸ h.symm))
    · split at h
      · exact Or.inr (Or.inr (Option.some.injEq .. ▸ h.symm))
      · exact absurd h (by simp)

/-- Shape of every result the Pattern Extractor returns: both fields are
captured strings and the confidence and reasoning come from the identified
provider row. -/
theorem tryStructured_some (e : Email) (r : ParsedData)
    (h : tryStructured e = Option.some r) :
    ∃ p c rl, identifyAts e.sender (pyLower e.body) = Option.some p ∧
      r = ⟨Option.some c, Option.some rl, Option.some DateVal.now, Option.some ("email"),
        Option.some ("applied"), Option.some p.confidence,
        Option.some ("Parsed using " ++ p.name ++ " ATS patterns")⟩ := by
  unfold tryStructured at h
  split at h
  · exact absurd h (by simp)
  next p hid =>
    split at h
    next c rl hc hrl =>
      injection h with h2
      exact ⟨p, c, rl, hid, h2.symm⟩
    next x y hmiss =>
      exact absurd h (by simp)

/-- Confidence attached by the Pattern Extractor: one of the two provider
constants, both at least the gate threshold and inside the unit interval. -/
theorem tryStructured_confidence (e : Email) (r : ParsedData)
    (h : tryStructured e = Option.some r) :
    ∃ q, r.confidence = Option.some q ∧ minConfidence ≤ q ∧ 0 ≤ q ∧ q ≤ 1 := by
  obtain ⟨p, c, rl, hid, hr⟩ := tryStructured_some e r h
  subst hr
  refine ⟨p.confidence, rfl, ?_⟩
  rcases identifyAts_cases _ _ _ hid with hp | hp | hp <;> subst hp <;>
    refine ⟨by decide, by decide, by decide⟩

/-! Claim theorems. -/

/-- C1: the Decision Gate returns true iff company is present (a non-empty
string under Python truthiness) and not the literal null, role likewise, and
confidence is at least 0.6; at the boundary, confidence exactly 0.6 with both
fields present is accepted and 0.59999 is rejected. -/
theorem claim1_decision_gate_iff :
    (∀ d : ParsedData, shouldSave d = true ↔ shouldSaveSpec d) ∧
      shouldSave dGateHi = true ∧ shouldSave dGateLo = false := by
  refine ⟨?_, by decide, by decide⟩
  intro d
  obtain ⟨co, ro, da, so, st, cf, re⟩ := d
  cases co <;> cases ro <;>
    simp [shouldSave, shouldSaveSpec, hasField, Bool.and_eq_true,
      decide_eq_true_eq, and_assoc]

/-- C9: the Decision Gate rejects any result whose company or role is the
empty string, and treats a missing confidence key as 0.0, rejecting the
result outright. -/
theorem claim9_gate_rejects_empty_and_missing :
    (∀ d : ParsedData, d.company = Option.some ("") → shouldSave d = false) ∧
      (∀ d : ParsedData, d.role = Option.some ("") → shouldSave d = false) ∧
      (∀ d : ParsedData, d.confidence = Option.none → shouldSave d = false) := by
  have hz : decide (minConfidence ≤ (0 : ℚ)) = false := by decide
  refine ⟨?_, ?_, ?_⟩ <;> intro d h <;>
    simp [shouldSave, h, hasField, hz]

/-- Witness for C9 at three concrete gate inputs. -/
theorem claim9_gate_witness :
    shouldSave ⟨Option.some (""), Option.some ("Eng"), Option.none, Option.none,
        Option.none, Option.some 1, Option.none⟩ = false ∧
      shouldSave ⟨Option.some ("Acme"), Option.some (""), Option.none, Option.none,
        Option.none, Option.some 1, Option.none⟩ = false ∧
      shouldSave ⟨Option.some ("Acme"), Option.some ("Eng"), Option.none, Option.none,
        Option.none, Option.none, Option.none⟩ = false :=
  ⟨claim9_gate_rejects_empty_and_missing.1 _ rfl,
    claim9_gate_rejects_empty_and_missing.2.1 _ rfl,
    claim9_gate_rejects_empty_and_missing.2.2 _ rfl⟩

/-- C7 counterexample: on the email with body at-and-two-spaces, the first
fallback company pattern matches (the company field is a captured string, not
None), yet because the captured group strips to the empty string the source's
truthiness test fails and the result carries confidence 0.0 and status
unclear instead of the claimed 0.3 and applied. -/
theorem claim7_matched_but_zero_confidence :
    (fallbackFirst fallbackCompanyPatterns
        (pyLower eAtOnly.subject ++ " " ++ pyLower eAtOnly.body)).isSome = true ∧
      (fallbackParsing eAtOnly).company = Option.some ("") ∧
      (fallbackParsing eAtOnly).confidence = Option.some 0 ∧
      (fallbackParsing eAtOnly).status = Option.some ("unclear") :=
  ⟨by decide, by decide, by decide, by decide⟩

/-- C7 amended: the Fallback Extractor returns confidence exactly 0.3 and
status applied when at least one of its two fields is truthy (a captured
group that strips to a non-empty string), and confidence exactly 0.0 and
status unclear otherwise; a pattern match whose captured group strips to the
empty string counts as no match for this policy. -/
theorem claim7_fallback_policy_amended :
    ∀ e : Email,
      (fallbackParsing e).confidence =
        Option.some
          (if pyTruthy (fallbackParsing e).company || pyTruthy (fallbackParsing e).role
            then conf03 else 0) ∧
      (fallbackParsing e).status =
        Option.some
          (if pyTruthy (fallbackParsing e).company || pyTruthy (fallbackParsing e).role
            then "applied" else "unclear") :=
  fun _ => ⟨rfl, rfl⟩

/-- C6 counterexample: a pattern-extractor result that reaches the gate and
fails it: on eNull the lever patterns match with captured company equal to
the literal null, and the Decision Gate rejects the result. -/
theorem claim6_pattern_result_fails_gate :
    tryStructured eNull = Option.some rNull ∧ shouldSave rNull = false :=
  ⟨by decide, by decide⟩

/-- C6 amended: every Pattern Extractor result carries a confidence at least
the gate threshold 0.6, so such a result passes the Decision Gate exactly
when its captured company and role fields are truthy and differ from the
literal null. -/
theorem claim6_pattern_gate_amended (e : Email) (r : ParsedData)
    (h : tryStructured e = Option.some r) :
    (∃ q, r.confidence = Option.some q ∧ minConfidence ≤ q) ∧
      shouldSave r = (hasField r.company && hasField r.role) := by
  obtain ⟨q, hq, hge, _, _⟩ := tryStructured_confidence e r h
  refine ⟨⟨q, hq, hge⟩, ?_⟩
  have hd : decide (minConfidence ≤ r.confidence.getD 0) = true := by
    rw [hq]
    exact decide_eq_true (by simpa using hge)
  simp [shouldSave, hd]

/-- Witness for C6 on the concrete email eAcme. -/
theorem claim6_pattern_gate_witness :
    (∃ q, rAcme.confidence = Option.some q ∧ minConfidence ≤ q) ∧
      shouldSave rAcme = (hasField rAcme.company && hasField rAcme.role) :=
  claim6_pattern_gate_amended eAcme rAcme (by decide)

/-- C2: for every email, every json.loads behaviour and every transport
outcome (raised exception, non-200 status, malformed response body, or a
well-formed reply), the Generative Extractor returns an ExtractionResult:
the blanket except clause maps every raising path to the fallback result,
and the only other path is the parsed reply with its reasoning overwritten
by the raw model text. No exception escapes, by totality of the embedded
try/except. -/
theorem claim2_generative_total :
    ∀ (pj : String → Option (List (String × Json))) (e : Email) (t : TransportOutcome),
      aiReasoningParse pj e t = fallbackParsing e ∨
        ∃ text, t = TransportOutcome.resp 200 (Option.some text) ∧
          aiReasoningParse pj e t =
            { parseAiResponse pj text with reasoning := Option.some text } := by
  intro pj e t
  cases t with
  | exc => exact Or.inl rfl
  | resp status body =>
    by_cases h : status = 200
    · subst h
      cases body with
      | none => exact Or.inl rfl
      | some text => exact Or.inr ⟨text, rfl, rfl⟩
    · left
      have hb : (status == 200) = false := by simpa using h
      simp [aiReasoningParse, aiReasoningTry, hb]

/-- C5 counterexample: transport succeeds but the reply hello is not
parseable; the Generative Extractor's result differs from the Fallback
Extractor's output on the same email (already their reasoning fields
differ: the raw reply versus the fixed fallback literal). -/
theorem claim5_malformed_not_fallback :
    aiReasoningParse pjNone eEmpty (TransportOutcome.resp 200 (Option.some ("hello"))) ≠
      fallbackParsing eEmpty := by
  decide

/-- C5 amended: when the transport succeeds but the sliced reply fails to
parse, the result is the safe default of _parse_ai_response (fields unset,
confidence 0.0, status unclear) with reasoning overwritten by the raw reply
text; only transport-level failures degrade to the Fallback Extractor. -/
theorem claim5_malformed_default_amended :
    ∀ (pj : String → Option (List (String × Json))) (e : Email) (text : String),
      pj (extractJsonStr text) = Option.none →
        aiReasoningParse pj e (TransportOutcome.resp 200 (Option.some text)) =
          { defaultAiParse with reasoning := Option.some text } := by
  intro pj e text h
  simp [aiReasoningParse, aiReasoningTry, parseAiResponse, h]

/-- Witness for C5 at the concrete unparseable reply hello. -/
theorem claim5_malformed_default_witness :
    aiReasoningParse pjNone eEmpty (TransportOutcome.resp 200 (Option.some ("hello"))) =
      { defaultAiParse with reasoning := Option.some ("hello") } :=
  claim5_malformed_default_amended pjNone eEmpty ("hello") rfl

/-- C4 counterexample: a well-formed model reply whose confidence is the
number 2 flows through _parse_ai_response unchecked, so the Generative
Extractor produces a result whose confidence lies outside the unit
interval. -/
theorem claim4_confidence_escapes_range :
    (aiReasoningParse pjConf2 eEmpty
        (TransportOutcome.resp 200 (Option.some cfString))).confidence =
      Option.some (2 : ℚ) ∧ ¬ ((2 : ℚ) ≤ 1) :=
  ⟨by decide, by decide⟩

/-- C4 amended: the Pattern Extractor, the Fallback Extractor, and the
Generative Extractor's failure paths (raised transport exception and
unparseable reply) all produce confidences inside the unit interval; only a
confidence parsed out of a well-formed model reply is passed through
unvalidated. -/
theorem claim4_confidence_range_amended :
    (∀ (e : Email) (r : ParsedData), tryStructured e = Option.some r →
        ∃ q, r.confidence = Option.some q ∧ 0 ≤ q ∧ q ≤ 1) ∧
      (∀ e : Email,
        ∃ q, (fallbackParsing e).confidence = Option.some q ∧ 0 ≤ q ∧ q ≤ 1) ∧
      (∀ (pj : String → Option (List (String × Json))) (e : Email),
        ∃ q, (aiReasoningParse pj e TransportOutcome.exc).confidence =
          Option.some q ∧ 0 ≤ q ∧ q ≤ 1) ∧
      (∀ (pj : String → Option (List (String × Json))) (e : Email) (text : String),
        pj (extractJsonStr text) = Option.none →
          ∃ q, (aiReasoningParse pj e
              (TransportOutcome.resp 200 (Option.some text))).confidence =
            Option.some q ∧ 0 ≤ q ∧ q ≤ 1) := by
  have hfb : ∀ e : Email,
      ∃ q, (fallbackParsing e).confidence = Option.some q ∧ 0 ≤ q ∧ q ≤ 1 := by
    intro e
    refine ⟨_, rfl, ?_⟩
    split <;> exact ⟨by decide, by decide⟩
  refine ⟨?_, hfb, fun pj e => hfb e, ?_⟩
  · intro e r h
    obtain ⟨q, hq, _, h0, h1⟩ := tryStructured_confidence e r h
    exact ⟨q, hq, h0, h1⟩
  · intro pj e text h
    rw [claim5_malformed_default_amended pj e text h]
    exact ⟨0, rfl, by decide, by decide⟩

/-- Witness for C4 on the pattern result of eAcme and on a concrete
unparseable generative reply. -/
theorem claim4_confidence_range_witness :
    (∃ q, rAcme.confidence = Option.some q ∧ 0 ≤ q ∧ q ≤ 1) ∧
      (∃ q, (aiReasoningParse pjNone eEmpty
          (TransportOutcome.resp 200 (Option.some ("hello")))).confidence =
        Option.some q ∧ 0 ≤ q ∧ q ≤ 1) :=
  ⟨claim4_confidence_range_amended.1 eAcme rAcme (by decide),
    claim4_confidence_range_amended.2.2.2 pjNone eEmpty ("hello") rfl⟩

/-- C10: provider identification tests the tokens against the raw sender and
the lowercased body only; when no lowercase token occurs in either, the
Pattern Extractor returns the no-match signal, even if the sender carries a
token in non-lowercase form. -/
theorem claim10_sender_not_lowercased :
    ∀ e : Email,
      strContains ("lever") e.sender = false →
      strContains ("greenhouse") e.sender = false →
      strContains ("workday") e.sender = false →
      strContains ("lever") (pyLower e.body) = false →
      strContains ("greenhouse") (pyLower e.body) = false →
      strContains ("workday") (pyLower e.body) = false →
      tryStructured e = Option.none := by
  intro e h1 h2 h3 h4 h5 h6
  have hid : identifyAts e.sender (pyLower e.body) = Option.none := by
    simp [identifyAts, h1, h2, h3, h4, h5, h6]
  simp [tryStructured, hid]

/-- Witness for C10: the sender carries Lever with an upper case initial (so
the token is present in non-lowercase form only), and the extractor returns
none. -/
theorem claim10_sender_witness :
    strContains ("Lever") eLeverCase.sender = true ∧
      tryStructured eLeverCase = Option.none :=
  ⟨by decide,
    claim10_sender_not_lowercased eLeverCase (by decide) (by decide) (by decide)
      (by decide) (by decide) (by decide)⟩

/-- C8 counterexample: on a reply holding two balanced objects the source
slices from the first opening brace to the last closing brace, which is not
the first balanced span. -/
theorem claim8_span_not_balanced :
    extractJsonStr ("\x7ba\x7d \x7bb\x7d") = ("\x7ba\x7d \x7bb\x7d") ∧
      firstBalancedSpan ("\x7ba\x7d \x7bb\x7d") = Option.some ("\x7ba\x7d") ∧
      ("\x7ba\x7d \x7bb\x7d" : String) ≠ ("\x7ba\x7d") :=
  ⟨by decide, by decide, by decide⟩

/-- Index returned by charIndex is the first occurrence. -/
theorem charIndex_eq_some_of (c : Char) (cs : List Char) (i : ℕ) (hi : i < cs.length)
    (hget : cs.get ⟨i, hi⟩ = c)
    (hfirst : ∀ k (hk : k < cs.length), k < i → cs.get ⟨k, hk⟩ ≠ c) :
    charIndex c cs = Option.some i := by
  induction cs generalizing i with
  | nil => exact absurd hi (by simp)
  | cons x xs ih =>
    cases i with
    | zero =>
      have hx : x = c := by simpa using hget
      simp [charIndex, hx]
    | succ j =>
      have hx : (x == c) = false := by
        have h0 := hfirst 0 (by simp) (Nat.succ_pos j)
        simpa using h0
      have hj : j < xs.length := by simpa [Nat.succ_lt_succ_iff] using hi
      have hget2 : xs.get ⟨j, hj⟩ = c := by simpa using hget
      have hfirst2 : ∀ k (hk : k < xs.length), k < j → xs.get ⟨k, hk⟩ ≠ c := by
        intro k hk hkj
        have := hfirst (k + 1) (by simpa [Nat.succ_lt_succ_iff] using hk)
          (by omega)
        simpa using this
      simp [charIndex, hx, ih j hj hget2 hfirst2]

/-- Python rfind returns the index of the last occurrence. -/
theorem pyRfind_eq (c : Char) (s : String) (j : ℕ) (hj : j < s.data.length)
    (hget : s.data.get ⟨j, hj⟩ = c)
    (hlast : ∀ k (hk : k < s.data.length), j < k → s.data.get ⟨k, hk⟩ ≠ c) :
    pyRfind c s = (j : Int) := by
  have hlen : 0 < s.data.length := Nat.lt_of_le_of_lt (Nat.zero_le j) hj
  have hrev : charIndex c s.data.reverse = Option.some (s.data.length - 1 - j) := by
    have hb : s.data.length - 1 - j < s.data.reverse.length := by
      rw [List.length_reverse]; omega
    apply charIndex_eq_some_of c s.data.reverse (s.data.length - 1 - j) hb
    · have hb2 : s.data.length - 1 - (s.data.length - 1 - j) < s.data.length := by omega
      have hrw : s.data.reverse.get ⟨s.data.length - 1 - j, hb⟩ =
          s.data.get ⟨s.data.length - 1 - (s.data.length - 1 - j), hb2⟩ := by
        simp [List.get_eq_getElem, List.getElem_reverse]
      have hfin : (⟨s.data.length - 1 - (s.data.length - 1 - j), hb2⟩ :
          Fin s.data.length) = ⟨j, hj⟩ :=
        Fin.ext (show s.data.length - 1 - (s.data.length - 1 - j) = j by omega)
      rw [hrw, hfin]
      exact hget
    · intro k hk hkj
      have hk2 : k < s.data.length := by simpa using hk
      have hb2 : s.data.length - 1 - k < s.data.length := by omega
      have hrw : s.data.reverse.get ⟨k, hk⟩ =
          s.data.get ⟨s.data.length - 1 - k, hb2⟩ := by
        simp [List.get_eq_getElem, List.getElem_reverse]
      rw [hrw]
      exact hlast (s.data.length - 1 - k) hb2 (by omega)
  unfold pyRfind
  rw [hrev]
  show ((s.data.length - 1 - (s.data.length - 1 - j) : ℕ) : Int) = (j : Int)
  omega

/-- C8 amended: the substring handed to json.loads runs from the first
opening brace of the reply through the last closing brace, regardless of
brace balance, whenever both braces occur. -/
theorem claim8_span_first_to_last_amended (s : String) (i j : ℕ)
    (hi : i < s.data.length) (hj : j < s.data.length)
    (hio : s.data.get ⟨i, hi⟩ = '{')
    (hif : ∀ k (hk : k < s.data.length), k < i → s.data.get ⟨k, hk⟩ ≠ '{')
    (hjo : s.data.get ⟨j, hj⟩ = '}')
    (hjl : ∀ k (hk : k < s.data.length), j < k → s.data.get ⟨k, hk⟩ ≠ '}') :
    extractJsonStr s = String.mk ((s.data.take (j + 1)).drop i) := by
  have hfind : pyFind ('{') s = (i : Int) := by
    unfold pyFind
    rw [charIndex_eq_some_of ('{') s.data i hi hio hif]
  have hrfind : pyRfind ('}') s = (j : Int) := pyRfind_eq ('}') s j hj hjo hjl
  unfold extractJsonStr pySlice
  rw [hfind, hrfind]
  have ha2 : (sliceIndex ((i : Int)) s.data.length).toNat = i := by
    unfold sliceIndex
    rw [if_neg (by omega : ¬ ((i : Int) < 0))]
    omega
  have hb2 : (sliceIndex ((j : Int) + 1) s.data.length).toNat = j + 1 := by
    unfold sliceIndex
    rw [if_neg (by omega : ¬ ((j : Int) + 1 < 0))]
    omega
  rw [ha2, hb2]

/-- Witness for C8 on a reply that is a single balanced object. -/
theorem claim8_span_witness : extractJsonStr ("\x7ba\x7d") = ("\x7ba\x7d") := by
  have hlen : (("\x7ba\x7d" : String)).data.length = 3 := by decide
  have hi : (0 : ℕ) < (("\x7ba\x7d" : String)).data.length := by rw [hlen]; omega
  have hj : (2 : ℕ) < (("\x7ba\x7d" : String)).data.length := by rw [hlen]; omega
  have hio : (("\x7ba\x7d" : String)).data.get ⟨0, hi⟩ = '{' :=
    (by decide :
      (("\x7ba\x7d" : String)).data.get ⟨0, of_decide_eq_true rfl⟩ = '{')
  have hjo : (("\x7ba\x7d" : String)).data.get ⟨2, hj⟩ = '}' :=
    (by decide :
      (("\x7ba\x7d" : String)).data.get ⟨2, of_decide_eq_true rfl⟩ = '}')
  have h := claim8_span_first_to_last_amended ("\x7ba\x7d") 0 2 hi hj hio
    (fun k hk hlt => absurd hlt (Nat.not_lt_zero k))
    hjo
    (fun k hk hlt => absurd hk (by rw [hlen]; omega))
  rw [h]
  decide

/-- Each loop iteration appends exactly one details entry, the one described
by detailOf. -/
theorem processStep_details (parse : Email → Except String ParsedData)
    (save : ParsedData → Email → Bool) (acc : BatchResults) (e : Email) :
    (processStep parse save acc e).details =
      acc.details ++ [detailOf parse save e] := by
  unfold processStep detailOf
  cases parse e with
  | error msg => rfl
  | ok pd =>
    cases hs : shouldSave pd <;> cases hsv : save pd e <;> simp [hs, hsv]

/-- The loop never touches the total_emails counter. -/
theorem processStep_total (parse : Email → Except String ParsedData)
    (save : ParsedData → Email → Bool) (acc : BatchResults) (e : Email) :
    (processStep parse save acc e).total_emails = acc.total_emails := by
  unfold processStep
  cases parse e with
  | error msg => rfl
  | ok pd =>
    cases hs : shouldSave pd <;> cases hsv : save pd e <;> simp [hs, hsv]

/-- Details accumulated by the fold: one entry per email, in input order. -/
theorem foldl_details (parse : Email → Except String ParsedData)
    (save : ParsedData → Email → Bool) :
    ∀ (l : List Email) (acc : BatchResults),
      (l.foldl (processStep parse save) acc).details =
        acc.details ++ l.map (detailOf parse save) := by
  intro l
  induction l with
  | nil => intro acc; simp
  | cons e rest ih =>
    intro acc
    rw [List.foldl_cons, ih, processStep_details]
    simp

/-- The fold preserves total_emails. -/
theorem foldl_total (parse : Email → Except String ParsedData)
    (save : ParsedData → Email → Bool) :
    ∀ (l : List Email) (acc : BatchResults),
      (l.foldl (processStep parse save) acc).total_emails = acc.total_emails := by
  intro l
  induction l with
  | nil => intro acc; rfl
  | cons e rest ih =>
    intro acc
    rw [List.foldl_cons, ih, processStep_total]

/-- Every details entry carries the id of the email that produced it. -/
theorem detailOf_email_id (parse : Email → Except String ParsedData)
    (save : ParsedData → Email → Bool) (e : Email) :
    (detailOf parse save e).email_id = e.id := by
  unfold detailOf
  cases parse e with
  | error msg => rfl
  | ok pd =>
    cases hs : shouldSave pd <;> cases hsv : save pd e <;>
      simp [hs, hsv, savedDetail, saveFailDetail, reviewDetail]

/-- An email whose pipeline returns normally and whose save succeeds yields a
non-error disposition. -/
theorem detailOf_ok_not_error (parse : Email → Except String ParsedData)
    (save : ParsedData → Email → Bool) (e : Email) (pd : ParsedData)
    (hok : parse e = Except.ok pd) (hsv : save pd e = true) :
    ((detailOf parse save e).status == "error") = false := by
  unfold detailOf
  rw [hok]
  cases hs : shouldSave pd <;> simp [hs, hsv, savedDetail, reviewDetail]

/-- An email whose pipeline raises yields exactly the error disposition
carrying the error text. -/
theorem detailOf_error (parse : Email → Except String ParsedData)
    (save : ParsedData → Email → Bool) (e : Email) (msg : String)
    (hbad : parse e = Except.error msg) :
    detailOf parse save e = errorDetail e.id msg := by
  unfold detailOf
  rw [hbad]

/-- C3: when the per-email pipeline raises for exactly one email of the batch
and every other email parses normally and saves successfully, the batch
outcome counts every input (total_emails equals the batch size), carries one
details entry per input email in input order, contains exactly one error
disposition (carrying the error text of the failing email), and N - 1
non-error dispositions; in particular the emails after the failure are all
processed. -/
theorem claim3_batch_isolation
    (parse : Email → Except String ParsedData) (save : ParsedData → Email → Bool)
    (pre post : List Email) (bad : Email) (msg : String)
    (hpre : ∀ x ∈ pre, ∃ pd, parse x = Except.ok pd)
    (hpost : ∀ x ∈ post, ∃ pd, parse x = Except.ok pd)
    (hsave : ∀ pd x, save pd x = true)
    (hbad : parse bad = Except.error msg) :
    (processNewEmails parse save (pre ++ bad :: post)).total_emails =
        (pre ++ bad :: post).length ∧
      (processNewEmails parse save (pre ++ bad :: post)).details.map Detail.email_id =
        (pre ++ bad :: post).map Email.id ∧
      (processNewEmails parse save (pre ++ bad :: post)).details.filter
          (fun d => d.status == "error") = [errorDetail bad.id msg] ∧
      ((processNewEmails parse save (pre ++ bad :: post)).details.filter
          (fun d => !(d.status == "error"))).length =
        (pre ++ bad :: post).length - 1 := by
  have hdet : (processNewEmails parse save (pre ++ bad :: post)).details =
      (pre ++ bad :: post).map (detailOf parse save) := by
    unfold processNewEmails
    rw [foldl_details]
    simp
  have hpreN : ∀ d ∈ pre.map (detailOf parse save), (d.status == "error") = false := by
    intro d hd
    rw [List.mem_map] at hd
    obtain ⟨x, hx, rfl⟩ := hd
    obtain ⟨pd, hpd⟩ := hpre x hx
    exact detailOf_ok_not_error parse save x pd hpd (hsave pd x)
  have hpostN : ∀ d ∈ post.map (detailOf parse save), (d.status == "error") = false := by
    intro d hd
    rw [List.mem_map] at hd
    obtain ⟨x, hx, rfl⟩ := hd
    obtain ⟨pd, hpd⟩ := hpost x hx
    exact detailOf_ok_not_error parse save x pd hpd (hsave pd x)
  have hbadD : detailOf parse save bad = errorDetail bad.id msg :=
    detailOf_error parse save bad msg hbad
  refine ⟨?_, ?_, ?_, ?_⟩
  · unfold processNewEmails
    rw [foldl_total]
  · rw [hdet, List.map_map]
    exact List.map_congr_left (fun x _ => detailOf_email_id parse save x)
  · rw [hdet, List.map_append, List.map_cons, List.filter_append, List.filter_cons,
      hbadD]
    have h1 : (pre.map (detailOf parse save)).filter (fun d => d.status == "error") =
        [] := by
      rw [List.filter_eq_nil_iff]
      intro d hd
      simp [hpreN d hd]
    have h2 : (post.map (detailOf parse save)).filter (fun d => d.status == "error") =
        [] := by
      rw [List.filter_eq_nil_iff]
      intro d hd
      simp [hpostN d hd]
    have h3 : ((errorDetail bad.id msg).status == "error") = true := rfl
    rw [h1, h2, h3]
    simp
  · rw [hdet, List.map_append, List.map_cons, List.filter_append, List.filter_cons,
      hbadD]
    have h1 : (pre.map (detailOf parse save)).filter (fun d => !(d.status == "error")) =
        pre.map (detailOf parse save) := by
      rw [List.filter_eq_self]
      intro d hd
      simp [hpreN d hd]
    have h2 : (post.map (detailOf parse save)).filter (fun d => !(d.status == "error")) =
        post.map (detailOf parse save) := by
      rw [List.filter_eq_self]
      intro d hd
      simp [hpostN d hd]
    have h3 : (!((errorDetail bad.id msg).status == "error")) = false := rfl
    rw [h1, h2, h3]
    simp only [Bool.false_eq_true, if_false, List.length_append, List.length_map,
      List.length_cons]
    omega

/-- Witness for C3 on a concrete three-email batch whose middle email
raises. -/
theorem claim3_batch_isolation_witness :
    (processNewEmails parseDemo saveDemo ([eA] ++ eB :: [eC])).total_emails =
        ([eA] ++ eB :: [eC]).length ∧
      (processNewEmails parseDemo saveDemo ([eA] ++ eB :: [eC])).details.map
          Detail.email_id = ([eA] ++ eB :: [eC]).map Email.id ∧
      (processNewEmails parseDemo saveDemo ([eA] ++ eB :: [eC])).details.filter
          (fun d => d.status == "error") = [errorDetail eB.id ("boom")] ∧
      ((processNewEmails parseDemo saveDemo ([eA] ++ eB :: [eC])).details.filter
          (fun d => !(d.status == "error"))).length =
        ([eA] ++ eB :: [eC]).length - 1 :=
  claim3_batch_isolation parseDemo saveDemo [eA] [eC] eB ("boom")
    (by
      intro x hx
      rw [List.mem_singleton] at hx
      subst hx
      exact ⟨pdOk, rfl⟩)
    (by
      intro x hx
      rw [List.mem_singleton] at hx
      subst hx
      exact ⟨pdOk, rfl⟩)
    (fun _ _ => rfl)
    rfl
